import Mathlib

/-!
Verification of the Chun-MediaConv conversion core against its
natural-language specification.

The Python source is shallowly embedded: each Lean definition below
translates one Python function or method (names follow the source).
Python floats are modelled as exact rationals, Python `int()` truncation
and `round()` banker's rounding are made explicit, and Python truthiness
checks are translated at each use site.
-/

/-! ## Python primitive helpers -/

/-- Python `int()` applied to a number: truncation toward zero. -/
def pyTrunc (q : ℚ) : Int := if 0 ≤ q then ⌊q⌋ else -⌊-q⌋

/-- Python 3 `round()` to an integer: round half to even. -/
def pyRound (q : ℚ) : Int :=
  let f := ⌊q⌋
  if q - f < 1/2 then f
  else if q - f > 1/2 then f + 1
  else if f % 2 = 0 then f else f + 1

/-- Lowercasing of a string, as Python `str.lower` on ASCII data. -/
def pyLower (s : String) : String := String.mk (s.toList.map Char.toLower)

/-- Python `str.strip()`: drop whitespace from both ends. -/
def pyStrip (s : String) : String :=
  String.mk (((s.toList.dropWhile Char.isWhitespace).reverse.dropWhile Char.isWhitespace).reverse)

/-- Python `str.rstrip()`: drop trailing whitespace. -/
def pyRstrip (s : String) : String :=
  String.mk ((s.toList.reverse.dropWhile Char.isWhitespace).reverse)

/-- Boolean prefix test on character lists (structural, kernel-reducible). -/
def listIsPrefix : List Char → List Char → Bool
  | [], _ => true
  | _ :: _, [] => false
  | a :: as, b :: bs => a = b && listIsPrefix as bs

/-- Boolean infix (substring) test on character lists. -/
def listHasSub (needle : List Char) : List Char → Bool
  | [] => listIsPrefix needle []
  | c :: rest => listIsPrefix needle (c :: rest) || listHasSub needle rest

/-- Python `needle in hay` on strings. -/
def strContainsSub (hay needle : String) : Bool := listHasSub needle.toList hay.toList

/-- Python `s.startswith(p)`. -/
def pyStartsWith (s p : String) : Bool := listIsPrefix p.toList s.toList

/-- Python `s.endswith(c)` for a single character. -/
def lastCharIs (s : String) (c : Char) : Bool := s.toList.getLast? = some c

/-- Digit-string to number (all characters must be decimal digits, nonempty). -/
def digitsToNat : List Char → Option Nat
  | [] => none
  | [c] => if c.isDigit then some (c.toNat - '0'.toNat) else none
  | c :: rest =>
    if c.isDigit then
      (digitsToNat rest).map (fun n => (c.toNat - '0'.toNat) * 10 ^ rest.length + n)
    else none

/-- Python `int(str)` on a plain decimal literal with optional sign and
surrounding whitespace; anything else raises, modelled as `none`. -/
def pyParseInt (s : String) : Option Int :=
  match (pyStrip s).toList with
  | '-' :: rest => (digitsToNat rest).map (fun n => -(n : Int))
  | '+' :: rest => (digitsToNat rest).map (fun n => (n : Int))
  | cs => (digitsToNat cs).map (fun n => (n : Int))

/-- Python `sep.join(parts)`. -/
def joinWith (sep : String) : List String → String
  | [] => ""
  | [s] => s
  | s :: rest => s ++ sep ++ joinWith sep rest

/-- Python `xs[-n:]`: the last `n` elements of a list. -/
def lastN (n : Nat) (xs : List String) : List String := xs.drop (xs.length - n)

/-- Python truthiness of an optional string (absent or empty is falsy). -/
def truthyStr : Option String → Bool
  | none => false
  | some s => s ≠ ""

/-- Python truthiness of an optional integer (absent or zero is falsy). -/
def truthyInt : Option Int → Bool
  | none => false
  | some n => n ≠ 0

/-- Python `x or d` for an optional string `x` and default `d`. -/
def pyOr (x : Option String) (d : String) : String :=
  match x with
  | none => d
  | some s => if s = "" then d else s

/-! ## FormatCompatibility (src/core/format_compatibility.py) -/

/-- FormatInfo dataclass from format_compatibility.py. -/
structure FormatInfo where
  name : String
  ext : String
  type : String
  supported_video_codecs : List String
  supported_audio_codecs : List String
  container_features : List String
deriving DecidableEq, Repr

/-- FormatCompatibility._initialize_formats: the static container table,
keyed by container name (Python dict as an association list in insertion
order). -/
def formats : List (String × FormatInfo) :=
  [ ("mp4", ⟨"MP4", "mp4", "video", ["h264", "h265"], ["aac", "alac"],
      ["chapters", "subtitles", "metadata"]⟩),
    ("mkv", ⟨"Matroska", "mkv", "video", ["h264", "h265", "vp9", "av1", "mpeg4", "ffv1"],
      ["aac", "mp3", "ac3", "flac", "opus", "vorbis", "dts"],
      ["chapters", "subtitles", "metadata", "multiple_audio", "multiple_subtitles"]⟩),
    ("webm", ⟨"WebM", "webm", "video", ["vp8", "vp9", "av1"], ["vorbis", "opus"],
      ["subtitles", "metadata"]⟩),
    ("avi", ⟨"AVI", "avi", "video", ["mpeg4", "mjpeg"], ["mp3", "ac3", "pcm"],
      ["metadata"]⟩),
    ("mov", ⟨"QuickTime", "mov", "video", ["h264", "h265", "prores"], ["aac", "alac", "pcm"],
      ["chapters", "metadata"]⟩),
    ("flv", ⟨"Flash Video", "flv", "video", ["h264", "flv1"], ["aac", "mp3"],
      ["metadata"]⟩),
    ("mp3", ⟨"MP3 Audio", "mp3", "audio", [], ["mp3"], ["metadata", "id3tags"]⟩),
    ("aac", ⟨"AAC Audio", "aac", "audio", [], ["aac"], ["metadata"]⟩),
    ("flac", ⟨"FLAC Lossless", "flac", "audio", [], ["flac"], ["metadata", "lossless"]⟩),
    ("wav", ⟨"WAV Audio", "wav", "audio", [], ["pcm"], ["lossless"]⟩),
    ("ogg", ⟨"Ogg Vorbis", "ogg", "audio", [], ["vorbis", "opus"], ["metadata"]⟩),
    ("opus", ⟨"Opus Audio", "opus", "audio", [], ["opus"], ["metadata"]⟩),
    ("m4a", ⟨"M4A Audio", "m4a", "audio", [], ["aac", "alac"], ["metadata"]⟩) ]

/-- FormatCompatibility.get_format_info / `self.formats.get(format_name)`. -/
def get_format_info (format_name : String) : Option FormatInfo :=
  (formats.find? (fun p => p.1 == format_name)).map (·.2)

/-- FormatCompatibility.get_fallback_codec. -/
def get_fallback_codec (format_name requested_video_codec requested_audio_codec : String) :
    String × String :=
  match get_format_info format_name with
  | none => ("libx264", "aac")
  | some fmt =>
    let video_codec :=
      if requested_video_codec ∉ fmt.supported_video_codecs ∧ fmt.supported_video_codecs ≠ []
      then fmt.supported_video_codecs.headD requested_video_codec
      else requested_video_codec
    let audio_codec :=
      if requested_audio_codec ∉ fmt.supported_audio_codecs ∧ fmt.supported_audio_codecs ≠ []
      then fmt.supported_audio_codecs.headD requested_audio_codec
      else requested_audio_codec
    (video_codec, audio_codec)

/-- FormatCompatibility.audio_codecs lossy flags (from _initialize_audio_codecs):
codec name paired with its `lossy` entry. -/
def audio_codecs_lossy : List (String × Bool) :=
  [ ("aac", true), ("mp3", true), ("opus", true), ("vorbis", true),
    ("flac", false), ("alac", false), ("pcm", false) ]

/-- ConversionWorker._is_lossy_audio: unknown codecs default to lossy. -/
def is_lossy_audio (codec : String) : Bool :=
  match (audio_codecs_lossy.find? (fun p => p.1 == codec)).map (·.2) with
  | none => true
  | some b => b

/-! ## ConversionWorker command synthesis (src/core/conversion_engine.py) -/

/-- A string-or-list job-config value (Python passes both shapes). -/
inductive StrOrList where
  | str (s : String)
  | list (l : List String)
deriving DecidableEq, Repr

/-- Python truthiness of an optional string-or-list value. -/
def truthyStrOrList : Option StrOrList → Bool
  | none => false
  | some (.str s) => s ≠ ""
  | some (.list l) => l ≠ []

/-- One probed video stream (fields used by command synthesis). -/
structure VideoStream where
  codec : Option String := none
  width : Int := 0
  height : Int := 0
  fps : ℚ := 0
deriving DecidableEq, Repr

/-- Probed input metadata (fields of _get_input_info used by synthesis). -/
structure InputInfo where
  duration : ℚ := 0
  video_streams : List VideoStream := []
deriving DecidableEq, Repr

/-- The job_config dictionary keys read by _apply_video_settings and
_resolve_gop_size; an absent key is `none`. -/
structure JobConfig where
  video_copy : Bool := false
  video_codec : Option String := none
  audio_codec : Option String := none
  video_encoder : Option String := none
  use_hardware_acceleration : Bool := true
  video_preset : Option String := none
  encoding_mode : Option String := none
  crf : Option Int := none
  video_bitrate : Option String := none
  target_size_mb : Option ℚ := none
  audio_bitrate : Option String := none
  cq : Option Int := none
  video_tune : Option String := none
  video_profile : Option String := none
  video_level : Option String := none
  pixel_format : Option String := none
  maxrate : Option String := none
  bufsize : Option String := none
  force_cfr : Bool := false
  gop_mode : Option String := none
  gop_size : Option Int := none
  gop_seconds : Option ℚ := none
  b_frames : Option Int := none
  scale_width : Option Int := none
  scale_height : Option Int := none
  video_filters : Option StrOrList := none
  framerate : Option String := none
  movflags : Option StrOrList := none
  extra_video_options : List String := []
  color_primaries : Option String := none
  color_trc : Option String := none
  colorspace : Option String := none
deriving Repr

/-- ConversionWorker._DEFAULT_VIDEO_ENCODERS. -/
def default_video_encoders : List (String × String) :=
  [ ("h264", "libx264"), ("h265", "libx265"), ("vp9", "libvpx-vp9"), ("vp8", "libvpx"),
    ("av1", "libaom-av1"), ("mpeg4", "mpeg4"), ("mjpeg", "mjpeg"), ("ffv1", "ffv1"),
    ("prores", "prores_ks") ]

/-- Dictionary get on _DEFAULT_VIDEO_ENCODERS with default `"lib" + codec`. -/
def default_video_encoder (codec : String) : String :=
  match (default_video_encoders.find? (fun p => p.1 == codec)).map (·.2) with
  | some e => e
  | none => "lib" ++ codec

/-- Drop the first `n` characters of a string (Python slicing). -/
def strDrop (s : String) (n : Nat) : String := String.mk (s.toList.drop n)

/-- The alias dictionary inside _normalize_video_codec. -/
def video_codec_alias_map : List (String × String) :=
  [ ("libx264", "h264"), ("x264", "h264"), ("libx265", "h265"), ("x265", "h265"),
    ("hevc", "h265"), ("libvpx-vp9", "vp9"), ("libvpx", "vp8"), ("vp10", "av1"),
    ("libaom-av1", "av1"), ("libaom", "av1"), ("libxvid", "mpeg4"), ("xvid", "mpeg4"),
    ("ffvhuff", "ffv1") ]

/-- ConversionWorker._normalize_video_codec. -/
def normalize_video_codec (codec : Option String) : String :=
  match codec with
  | none => "h264"
  | some c =>
    if c = "" then "h264"
    else
      let codec_lower := pyLower c
      match (video_codec_alias_map.find? (fun p => p.1 == codec_lower)).map (·.2) with
      | some m => m
      | none =>
        let codec_lower :=
          if pyStartsWith codec_lower "lib" then strDrop codec_lower 3 else codec_lower
        let codec_lower :=
          if pyStartsWith codec_lower "x" ∧ codec_lower ≠ "xvid" then strDrop codec_lower 1
          else codec_lower
        if codec_lower = "vpx-vp9" then "vp9"
        else if codec_lower = "vpx" then "vp8"
        else if codec_lower = "xvid" then "mpeg4"
        else codec_lower

/-- The lib_map dictionary inside _normalize_audio_codec. -/
def audio_codec_lib_map : List (String × String) :=
  [ ("libopus", "opus"), ("libvorbis", "vorbis"), ("libmp3lame", "mp3"),
    ("pcm_s16le", "pcm"), ("pcm_s24le", "pcm"), ("pcm_s32le", "pcm") ]

/-- ConversionWorker._normalize_audio_codec. -/
def normalize_audio_codec (codec : Option String) : String :=
  match codec with
  | none => "aac"
  | some c =>
    if c = "" then "aac"
    else
      let codec_lower := pyLower c
      match (audio_codec_lib_map.find? (fun p => p.1 == codec_lower)).map (·.2) with
      | some m => m
      | none => codec_lower

/-- The allowed nvenc preset vocabulary inside _map_encoder_preset. -/
def nvenc_allowed_presets : List String :=
  [ "default", "slow", "medium", "fast", "hp", "hq", "bd",
    "ll", "llhq", "llhp", "lossless", "losslesshp",
    "p1", "p2", "p3", "p4", "p5", "p6", "p7" ]

/-- The x264-to-nvenc preset mapping inside _map_encoder_preset. -/
def nvenc_preset_map : List (String × String) :=
  [ ("ultrafast", "p1"), ("superfast", "p2"), ("veryfast", "p3"), ("faster", "p4"),
    ("fast", "p5"), ("medium", "p6"), ("slow", "p7"), ("slower", "slow"),
    ("veryslow", "slow") ]

/-- ConversionWorker._map_encoder_preset. -/
def map_encoder_preset (encoder : String) (preset : Option String) : Option String :=
  match preset with
  | none => none
  | some p =>
    if p = "" then none
    else
      let preset_str := pyLower (pyStrip p)
      if preset_str = "" then none
      else if strContainsSub (pyLower encoder) "nvenc" then
        let mapped :=
          match (nvenc_preset_map.find? (fun q => q.1 == preset_str)).map (·.2) with
          | some m => m
          | none => preset_str
        if mapped ∈ nvenc_allowed_presets then some mapped else none
      else some p

/-- ConversionWorker._map_encoder_tune: tune is dropped when absent or
blank, and when the encoder name contains "nvenc"; otherwise the original
requested tune string is returned. -/
def map_encoder_tune (encoder : String) (tune : Option String) : Option String :=
  match tune with
  | none => none
  | some t =>
    if t = "" then none
    else
      let tune_str := pyLower (pyStrip t)
      if tune_str = "" then none
      else if strContainsSub (pyLower encoder) "nvenc" then none
      else some t

/-- ConversionWorker._extract_source_fps. -/
def extract_source_fps (input_info : InputInfo) : ℚ :=
  match input_info.video_streams with
  | [] => 0
  | s :: _ => if s.fps = 0 then 0 else s.fps

/-- ConversionWorker._resolve_gop_size. -/
def resolve_gop_size (config : JobConfig) (input_info : InputInfo) : Option Int :=
  let mode := pyLower (pyOr config.gop_mode "half_fps")
  let fps := extract_source_fps input_info
  let default_g := config.gop_size
  if fps ≤ 0 ∧ ¬ truthyInt default_g then none
  else if mode = "half_fps" ∧ fps > 0 then some (max 1 (pyRound (fps / 2)))
  else if mode = "same_fps" ∧ fps > 0 then some (max 1 (pyRound fps))
  else if mode = "double_fps" ∧ fps > 0 then some (max 1 (pyRound (fps * 2)))
  else if mode = "seconds" ∧ fps > 0 then
    some (max 1 (pyRound (fps * config.gop_seconds.getD 2)))
  else if mode = "custom" ∧ truthyInt default_g then some (default_g.getD 0)
  else if truthyInt default_g then default_g
  else none

/-- ConversionWorker._extract_audio_bitrate_kbps. -/
def extract_audio_bitrate_kbps (audio_bitrate : Option String) : Int :=
  match audio_bitrate with
  | none => 128
  | some s =>
    if s = "" then 128
    else if lastCharIs s 'k' then
      match pyParseInt (String.mk s.toList.dropLast) with
      | some n => n
      | none => 128
    else
      match pyParseInt s with
      | some n => n
      | none => 128

/-- The target_size branch of _apply_video_settings: video bitrate in kbps
from the target size (MB), the probed duration (seconds, floored at 1) and
the estimated audio bitrate (kbps). -/
def target_size_video_kbps (target_mb duration0 : ℚ) (audio_kbps : Int) : Int :=
  let duration := max duration0 1
  let total_kbits := target_mb * 8000
  max (pyTrunc ((total_kbits - audio_kbps * duration) / duration)) 300

/-- The nvenc-only flags skipped by _iter_video_options on other encoders. -/
def skip_nvenc_only : List String := ["-rc", "-spatial_aq", "-temporal_aq", "-aq-strength"]

/-- ConversionWorker._iter_video_options. -/
def iter_video_options (encoder : String) : List String → List (String × Option String)
  | [] => []
  | [flag] =>
    if flag ∈ skip_nvenc_only ∧ ¬ strContainsSub (pyLower encoder) "nvenc" then []
    else [(flag, none)]
  | flag :: next :: rest =>
    let value := if pyStartsWith next "-" then none else some next
    match value with
    | some v =>
      if flag ∈ skip_nvenc_only ∧ ¬ strContainsSub (pyLower encoder) "nvenc" then
        iter_video_options encoder rest
      else (flag, some v) :: iter_video_options encoder rest
    | none =>
      if flag ∈ skip_nvenc_only ∧ ¬ strContainsSub (pyLower encoder) "nvenc" then
        iter_video_options encoder (next :: rest)
      else (flag, none) :: iter_video_options encoder (next :: rest)

/-- Encoder selection in _apply_video_settings: an explicit truthy
`video_encoder` override wins; otherwise the default CPU encoder for the
codec, upgraded through the hardware detector when hardware use is
requested.  The detector (`HardwareDetector.get_encoder`) shells out to
the encoder binary, so it is abstracted as a function parameter. -/
def select_video_encoder (hw_get_encoder : String → String → String)
    (config : JobConfig) (video_codec : String) : String :=
  let default_encoder := default_video_encoder video_codec
  let derived :=
    if config.use_hardware_acceleration then hw_get_encoder video_codec default_encoder
    else default_encoder
  match config.video_encoder with
  | some e => if e ≠ "" then e else derived
  | none => derived

/-- The encoding-mode branch of _apply_video_settings (crf / bitrate /
target_size / cq / lossless), returning the flags it appends. -/
def video_mode_args (config : JobConfig) (input_info : InputInfo) : List String :=
  let encoding_mode := pyLower (pyOr config.encoding_mode "crf")
  if encoding_mode = "crf" then ["-crf", toString (config.crf.getD 23)]
  else if encoding_mode = "bitrate" then ["-b:v", config.video_bitrate.getD "5M"]
  else if encoding_mode = "target_size" then
    let video_kbps := target_size_video_kbps (config.target_size_mb.getD 50)
      input_info.duration (extract_audio_bitrate_kbps config.audio_bitrate)
    ["-b:v", toString video_kbps ++ "k"]
  else if encoding_mode = "cq" then ["-cq", toString (config.cq.getD 20)]
  else []

/-- The GOP flag appended by _apply_video_settings: `-g` with the resolved
size, skipped when resolution yields nothing (Python truthiness also skips
a resolved zero). -/
def gop_args (config : JobConfig) (input_info : InputInfo) : List String :=
  match resolve_gop_size config input_info with
  | none => []
  | some g => if g ≠ 0 then ["-g", toString g] else []

/-- The tune flag appended by _apply_video_settings. -/
def video_tune_args (encoder : String) (tune : Option String) : List String :=
  match map_encoder_tune encoder tune with
  | none => []
  | some t => ["-tune", t]

/-- The filter-chain flags of _apply_video_settings: scale filter plus
explicit filter strings, comma-joined behind a single `-vf`. -/
def video_filter_args (config : JobConfig) : List String :=
  let filters :=
    (if truthyInt config.scale_width ∨ truthyInt config.scale_height then
      let width := config.scale_width.getD (-2)
      let height := config.scale_height.getD (-2)
      ["scale=" ++ toString width ++ ":" ++ toString height]
    else []) ++
    (match config.video_filters with
     | none => []
     | some (.list l) => if l ≠ [] then l.filter (· ≠ "") else []
     | some (.str s) => if s ≠ "" then [s] else [])
  if filters ≠ [] then ["-vf", joinWith "," filters] else []

/-- The movflags branch of _apply_video_settings. -/
def movflags_args (config : JobConfig) (output_ext : String) : List String :=
  if truthyStrOrList config.movflags ∧ (output_ext = "mp4" ∨ output_ext = "mov") then
    match config.movflags with
    | some (.list l) => ["-movflags", joinWith " " l]
    | some (.str s) => ["-movflags", s]
    | none => []
  else if output_ext = "mp4" then ["-movflags", "+faststart"]
  else []

/-- The passthrough extra-option flags of _apply_video_settings. -/
def extra_video_args (config : JobConfig) (encoder : String) : List String :=
  ((iter_video_options encoder config.extra_video_options).map
    (fun fv => fv.1 :: fv.2.toList)).flatten

/-- ConversionWorker._apply_video_settings: the argument slice appended for
video handling, in source order. -/
def apply_video_settings (hw_get_encoder : String → String → String)
    (config : JobConfig) (fmt_info : Option FormatInfo) (output_ext : String)
    (input_info : InputInfo) : List String :=
  if config.video_copy then ["-c:v", "copy"]
  else
    let video_codec0 := normalize_video_codec config.video_codec
    let audio_codec0 := normalize_audio_codec config.audio_codec
    let pair :=
      match fmt_info with
      | some fmt =>
        if video_codec0 ∉ fmt.supported_video_codecs then
          get_fallback_codec output_ext video_codec0 audio_codec0
        else (video_codec0, audio_codec0)
      | none => (video_codec0, audio_codec0)
    let encoder := select_video_encoder hw_get_encoder config pair.1
    let mapped_preset := map_encoder_preset encoder config.video_preset
    ["-c:v", encoder]
    ++ video_mode_args config input_info
    ++ (match mapped_preset with | some p => ["-preset", p] | none => [])
    ++ video_tune_args encoder config.video_tune
    ++ (if truthyStr config.video_profile then ["-profile:v", config.video_profile.getD ""] else [])
    ++ (if truthyStr config.video_level then ["-level", config.video_level.getD ""] else [])
    ++ (if truthyStr config.pixel_format then ["-pix_fmt", config.pixel_format.getD ""] else [])
    ++ (if truthyStr config.maxrate then ["-maxrate", config.maxrate.getD ""] else [])
    ++ (if truthyStr config.bufsize then ["-bufsize", config.bufsize.getD ""] else [])
    ++ (if config.force_cfr then ["-vsync", "cfr"] else [])
    ++ gop_args config input_info
    ++ (match config.b_frames with | some b => ["-bf", toString b] | none => [])
    ++ video_filter_args config
    ++ (if truthyStr config.framerate then ["-r", config.framerate.getD ""] else [])
    ++ movflags_args config output_ext
    ++ extra_video_args config encoder
    ++ (if truthyStr config.color_primaries then ["-color_primaries", config.color_primaries.getD ""] else [])
    ++ (if truthyStr config.color_trc then ["-color_trc", config.color_trc.getD ""] else [])
    ++ (if truthyStr config.colorspace then ["-colorspace", config.colorspace.getD ""] else [])

/-! ## ConversionWorker execution loop (src/core/conversion_engine.py) -/

/-- The bounded diagnostic buffer of _execute_conversion: append one line,
then drop the oldest once more than 200 are held. -/
def push200 (buf : List String) (s : String) : List String :=
  let buf2 := buf ++ [s]
  if buf2.length > 200 then buf2.drop 1 else buf2

/-- Whether the cooperative stop flag reads true at the per-line check with
index `i`.  The flag is set concurrently by ConversionWorker.stop, so the
schedule is explicit: `stop_at = some k` means every check from index `k`
on observes it; `none` means no check ever observes it (including the case
of a stop request issued after the last output line was consumed). -/
def stopObserved (stop_at : Option Nat) (i : Nat) : Bool :=
  match stop_at with
  | none => false
  | some k => i ≥ k

/-- The output-streaming loop of _execute_conversion: collects the bounded
diagnostic buffer (blank-after-rstrip lines are not buffered) and reports
whether cancellation was observed.  Progress parsing and emission do not
affect control flow or the returned outcome and are omitted. -/
def exec_loop (stop_at : Option Nat) : List String → Nat → List String → List String × Bool
  | [], _, buf => (buf, false)
  | line :: rest, i, buf =>
    let stripped := pyRstrip line
    let buf2 := if stripped ≠ "" then push200 buf stripped else buf
    if stopObserved stop_at i then (buf2, true)
    else exec_loop stop_at rest (i + 1) buf2

/-- ConversionWorker._execute_conversion, as a function of the child
process's output lines, the stop-observation schedule and the final exit
code: returns the (success, message) pair. -/
def execute_conversion (lines : List String) (stop_at : Option Nat) (returncode : Int) :
    Bool × String :=
  let res := exec_loop stop_at lines 0 []
  if res.2 then (false, "Conversion cancelled")
  else if returncode = 0 then (true, "")
  else
    let tail := if res.1 ≠ [] then joinWith "\n" (lastN 20 res.1) else ""
    let message := "ffmpeg exited with code " ++ toString returncode
    (false, if tail ≠ "" then message ++ "\n" ++ tail else message)

/-- The error-signal decision in ConversionWorker.run after _execute_conversion:
the error signal fires for a failed result unless its message is empty or is
the cancellation message. -/
def run_emits_error (result : Bool × String) : Bool :=
  !result.1 && !(result.2 == "") && !(result.2 == "Conversion cancelled")

/-- Signals and temp-directory effects emitted during one ConversionWorker.run. -/
inductive RunEvent where
  | createdTempDir
  | progressEv (p : ℚ) (msg : String)
  | errorEv (msg : String)
  | finishedEv (ok : Bool) (msg : String)
  | cleanupTempDir
deriving DecidableEq, Repr

/-- The effects oracle for one ConversionWorker.run invocation: whether the
per-job temp directory creation raises, what probing the input returns, and
the conversion outcome (`.error` models an exception escaping command
building or signal emission; `.ok` is the (success, message) pair from
_execute_conversion, which catches its own exceptions internally). -/
structure RunOracle where
  create : Except String Unit
  probe : Option InputInfo
  outcome : Except String (Bool × String)

/-- ConversionWorker.run as the trace of its emitted signals and temp-dir
effects: the try body branches on analysis and execution results, the
except clause reports exceptions, and the finally clause cleans up the
temp directory whenever one was created. -/
def worker_run (o : RunOracle) (output_file : String) : List RunEvent :=
  match o.create with
  | .error e => [.errorEv ("Conversion error: " ++ e), .finishedEv false e]
  | .ok _ =>
    let body : List RunEvent :=
      .progressEv 0 "Analyzing input file..." ::
      (match o.probe with
       | none => [.errorEv "Failed to analyze input file", .finishedEv false "Analysis failed"]
       | some _ =>
         .progressEv 5 "Building conversion command..." ::
         (match o.outcome with
          | .error e => [.errorEv ("Conversion error: " ++ e), .finishedEv false e]
          | .ok result =>
            .progressEv 10 "Starting conversion..." ::
            (if result.1 then
              [.progressEv 100 "Conversion complete!", .finishedEv true output_file]
             else
              (if result.2 ≠ "" ∧ result.2 ≠ "Conversion cancelled" then [.errorEv result.2]
               else []) ++
              [.finishedEv false (if result.2 = "" then "Conversion failed" else result.2)])))
    .createdTempDir :: body ++ [.cleanupTempDir]

/-! ## Scheduler (src/ui/main_window.py) -/

/-- Scheduler bookkeeping held by MainWindow: the FIFO queue of input
files, the keys of active_conversions (a dict, so keys are unique and kept
in insertion order), the progress_values dict, and the progress-bar value. -/
structure SchedState where
  queue : List String
  active : List String
  progress_values : List (String × ℚ)
  bar_value : Int
deriving Repr

/-- Dict-style insert-or-overwrite on progress_values. -/
def updateAssoc (l : List (String × ℚ)) (k : String) (v : ℚ) : List (String × ℚ) :=
  if l.any (fun p => p.1 == k) then l.map (fun p => if p.1 == k then (k, v) else p)
  else l ++ [(k, v)]

/-- Dict-style key removal on progress_values. -/
def eraseAssoc (l : List (String × ℚ)) (k : String) : List (String × ℚ) :=
  l.filter (fun p => !(p.1 == k))

/-- Dialogs shown by the scheduler methods. -/
inductive UiEvent where
  | errorDialog (msg : String)
  | completionDialog
deriving DecidableEq, Repr

/-- MainWindow.process_next_in_queue.  `create_ok j` abstracts whether
ConversionEngine.create_conversion_job returns a worker for job `j` (it
returns None when hardware initialization fails because no encoder path is
configured or detection fails).  Returns the new state, the dialogs shown,
and the job a worker was created and started for, if any. -/
def process_next_in_queue (create_ok : String → Bool) (st : SchedState) :
    SchedState × List UiEvent × Option String :=
  match st.queue with
  | [] =>
    if st.active = [] then (st, [UiEvent.completionDialog], none) else (st, [], none)
  | input_file :: rest =>
    let st1 := { st with queue := rest }
    if create_ok input_file then
      ({ st1 with active := if input_file ∈ st1.active then st1.active
                            else st1.active ++ [input_file] },
       [], some input_file)
    else
      (st1, [UiEvent.errorDialog "Failed to create conversion job"], none)

/-- The while loop of fill_conversion_slots, with the queue length as fuel
(each iteration pops exactly one queued job, so the fuel is never the
binding constraint). -/
def fill_loop (max_parallel : Nat) (create_ok : String → Bool) :
    Nat → SchedState → SchedState
  | 0, st => st
  | fuel + 1, st =>
    if st.queue ≠ [] ∧ st.active.length < max_parallel then
      fill_loop max_parallel create_ok fuel (process_next_in_queue create_ok st).1
    else st

/-- MainWindow.fill_conversion_slots: `max_parallel = max(1, int(n))`, then
pop-and-start while the queue is non-empty and fewer than max_parallel
conversions are active. -/
def fill_conversion_slots (n : Int) (create_ok : String → Bool) (st : SchedState) : SchedState :=
  fill_loop (max 1 n).toNat create_ok st.queue.length st

/-- Sum of the recorded progress fractions. -/
def sumVals (l : List (String × ℚ)) : ℚ := (l.map (·.2)).sum

/-- The aggregate written to the progress bar by on_conversion_progress:
`sum(progress_values.values()) / max(1, len(progress_values))`. -/
def aggregate_progress (pv : List (String × ℚ)) : ℚ :=
  sumVals pv / (max 1 pv.length : ℕ)

/-- MainWindow.on_conversion_progress: record the sender's fraction when the
sender is an active conversion, then recompute the displayed aggregate as
the mean of the recorded fractions (the bar keeps its value when nothing is
recorded; the bar stores the Python `int(avg)` truncation). -/
def on_conversion_progress (st : SchedState) (sender : String) (p : ℚ) : SchedState :=
  let pv := if sender ∈ st.active then updateAssoc st.progress_values sender p
            else st.progress_values
  let bar := if pv ≠ [] then pyTrunc (aggregate_progress pv) else st.bar_value
  { st with progress_values := pv, bar_value := bar }

/-- MainWindow.on_conversion_finished: drop the sender from the active set
and its progress entry (falling back to the most recently inserted active
entry when the sender is not found), then refill slots on success (the
failure branch shows a dialog and does not refill). -/
def on_conversion_finished (n : Int) (create_ok : String → Bool)
    (st : SchedState) (sender : String) (success : Bool) : SchedState :=
  let st1 :=
    if sender ∈ st.active then
      { st with active := st.active.erase sender,
                progress_values := eraseAssoc st.progress_values sender }
    else if st.active ≠ [] then
      { st with active := st.active.dropLast,
                progress_values := eraseAssoc st.progress_values (st.active.getLastD "") }
    else st
  if success then fill_conversion_slots n create_ok st1 else st1

/-- One scheduler-facing event: a job arrival, a start request, a worker
progress or terminal event, or a stop-all request. -/
inductive SchedEvent where
  | enqueue (job : String)
  | start
  | progressEvent (sender : String) (p : ℚ)
  | finishedEvent (sender : String) (success : Bool)
  | stopAll
deriving Repr

/-- Dispatch of one scheduler event to the MainWindow handler it triggers. -/
def sched_step (n : Int) (create_ok : String → Bool) (st : SchedState) :
    SchedEvent → SchedState
  | .enqueue j => { st with queue := st.queue ++ [j] }
  | .start => fill_conversion_slots n create_ok st
  | .progressEvent s p => on_conversion_progress st s p
  | .finishedEvent s ok => on_conversion_finished n create_ok st s ok
  | .stopAll => { st with active := [], progress_values := [] }

/-- The scheduler's initial state. -/
def initial_sched_state : SchedState := ⟨[], [], [], 0⟩

/-- The scheduler state after an arbitrary event sequence. -/
def sched_run (n : Int) (create_ok : String → Bool) (events : List SchedEvent) : SchedState :=
  events.foldl (sched_step n create_ok) initial_sched_state

/-- Modelled from the spec (C6 claim side): "the arithmetic mean of all
currently active jobs' fractions" — an active job with no recorded
fraction has reported no progress, so its fraction reads as 0.  This
definition exists only to compare the claim's aggregate with the one the
code computes. -/
def mean_of_active_spec (st : SchedState) : ℚ :=
  (st.active.map (fun j =>
    ((st.progress_values.find? (fun q => q.1 == j)).map (·.2)).getD 0)).sum
    / (st.active.length : ℕ)

/-- Modelled from the spec: the hardware encoder families listed in the
specification (suffixes nvenc, qsv, amf, vaapi, videotoolbox, vulkan); an
encoder is in a hardware family when its lowered name contains one of them.
This claim-side definition exists only to compare the claim's notion of
"hardware encoder family" with what the code actually checks. -/
def hardware_encoder_family_spec (encoder : String) : Bool :=
  ["nvenc", "qsv", "amf", "vaapi", "videotoolbox", "vulkan"].any
    (fun fam => strContainsSub (pyLower encoder) fam)

/-! ## C1: fallback codec membership -/

/-- C1 counterexample: the claim fails on the code in two ways.  For the
known audio container "mp3" the allowed video-codec set is empty and the
requested video codec "vp9" is passed through unchanged, so the returned
pair is not a member of the container's allowed video set; and for an
unknown container the returned default pair is ("libx264", "aac"), not
("h264", "aac"). -/
theorem fallback_membership_counterexample :
    (get_fallback_codec "mp3" "vp9" "mp3").1 ∉
      ((get_format_info "mp3").elim [] FormatInfo.supported_video_codecs) ∧
    (get_format_info "mp3").isSome = true ∧
    get_format_info "nosuch" = none ∧
    get_fallback_codec "nosuch" "vp9" "mp3" = ("libx264", "aac") ∧
    (("libx264", "aac") : String × String) ≠ ("h264", "aac") := by
  decide

/-- The codec picked by one branch of get_fallback_codec is a member of the
allowed list unless that list is empty, in which case it is the request. -/
theorem fallback_pick_mem (v : String) (l : List String) :
    (if v ∉ l ∧ l ≠ [] then l.headD v else v) ∈ l ∨
      (l = [] ∧ (if v ∉ l ∧ l ≠ [] then l.headD v else v) = v) := by
  by_cases hv : v ∈ l
  · left
    rw [if_neg (fun hc => hc.1 hv)]
    exact hv
  · cases l with
    | nil =>
      right
      exact ⟨rfl, by rw [if_neg (fun hc => hc.2 rfl)]⟩
    | cons c cs =>
      left
      rw [if_pos ⟨hv, by simp⟩]
      simp [List.headD]

/-- C1 (amended): for a known container, each returned codec is a member of
the container's allowed set whenever that set is non-empty, and is the
requested codec unchanged when the set is empty; for an unknown container
the returned pair is the conservative software default ("libx264", "aac"). -/
theorem fallback_membership_amended (format_name v a : String) :
    (get_format_info format_name = none →
      get_fallback_codec format_name v a = ("libx264", "aac")) ∧
    (∀ fmt, get_format_info format_name = some fmt →
      ((get_fallback_codec format_name v a).1 ∈ fmt.supported_video_codecs ∨
        (fmt.supported_video_codecs = [] ∧ (get_fallback_codec format_name v a).1 = v)) ∧
      ((get_fallback_codec format_name v a).2 ∈ fmt.supported_audio_codecs ∨
        (fmt.supported_audio_codecs = [] ∧ (get_fallback_codec format_name v a).2 = a))) := by
  constructor
  · intro h
    simp [get_fallback_codec, h]
  · intro fmt h
    have e1 : (get_fallback_codec format_name v a).1 =
        (if v ∉ fmt.supported_video_codecs ∧ fmt.supported_video_codecs ≠ []
         then fmt.supported_video_codecs.headD v else v) := by
      simp only [get_fallback_codec, h]
    have e2 : (get_fallback_codec format_name v a).2 =
        (if a ∉ fmt.supported_audio_codecs ∧ fmt.supported_audio_codecs ≠ []
         then fmt.supported_audio_codecs.headD a else a) := by
      simp only [get_fallback_codec, h]
    rw [e1, e2]
    exact ⟨fallback_pick_mem v fmt.supported_video_codecs,
           fallback_pick_mem a fmt.supported_audio_codecs⟩

/-- C1 witness: the amended theorem applied at an unknown container. -/
theorem fallback_membership_witness :
    get_fallback_codec "nosuch2" "x" "y" = ("libx264", "aac") :=
  (fallback_membership_amended "nosuch2" "x" "y").1 (by decide)

/-! ## C2: target-size bitrate -/

/-- Truncation toward zero and flooring agree once clamped at the 300 floor:
when the quotient is negative both truncations are at most 0 and the max
yields 300 either way, and for a nonnegative quotient they coincide. -/
theorem max_pyTrunc_300 (x : ℚ) : max (pyTrunc x) 300 = max 300 ⌊x⌋ := by
  unfold pyTrunc
  by_cases hx : 0 ≤ x
  · rw [if_pos hx, max_comm]
  · rw [if_neg hx]
    have hfl : ⌊x⌋ ≤ 0 := Int.floor_nonpos (by linarith)
    have hneg : -⌊-x⌋ ≤ 0 := by
      have : 0 ≤ ⌊-x⌋ := Int.floor_nonneg.mpr (by linarith)
      omega
    rw [max_eq_right (by omega : -⌊-x⌋ ≤ 300), max_eq_left (by omega : ⌊x⌋ ≤ 300)]

/-- C2 counterexample: at target size 50 MB, duration 120 s and configured
audio bitrate "128k" the emitted video bitrate is 3205 kbps, not the
claimed 3204 ((50*8000 - 128*120)/120 = 3205.33..., floored to 3205). -/
theorem target_size_bitrate_counterexample :
    video_mode_args
      { encoding_mode := some "target_size", target_size_mb := some 50,
        audio_bitrate := some "128k" }
      { duration := 120 } = ["-b:v", "3205k"] ∧
    (["-b:v", "3205k"] : List String) ≠ ["-b:v", "3204k"] := by
  constructor
  · have h1 : target_size_video_kbps 50 120 128 = 3205 := by
      unfold target_size_video_kbps
      norm_num [pyTrunc, max_def]
    have h2 : video_mode_args
        { encoding_mode := some "target_size", target_size_mb := some 50,
          audio_bitrate := some "128k" }
        { duration := 120 } =
        ["-b:v", toString (target_size_video_kbps 50 120 128) ++ "k"] := rfl
    rw [h2, h1]
    decide
  · decide

/-- C2 (amended): in target_size mode command synthesis emits exactly
`-b:v` with max(300, floor((S*8000 - a*d')/d')) kbps, where d' = max(d, 1);
the concrete instance S=50 MB, d=120 s, a=128 kbps gives 3205 kbps. -/
theorem target_size_bitrate_formula (config : JobConfig) (input_info : InputInfo)
    (hmode : pyLower (pyOr config.encoding_mode "crf") = "target_size") :
    video_mode_args config input_info =
      ["-b:v", toString (max 300 ⌊((config.target_size_mb.getD 50) * 8000 -
        (extract_audio_bitrate_kbps config.audio_bitrate : ℚ) * max input_info.duration 1) /
        max input_info.duration 1⌋) ++ "k"] := by
  have hval : target_size_video_kbps (config.target_size_mb.getD 50) input_info.duration
      (extract_audio_bitrate_kbps config.audio_bitrate) =
      max 300 ⌊((config.target_size_mb.getD 50) * 8000 -
        (extract_audio_bitrate_kbps config.audio_bitrate : ℚ) * max input_info.duration 1) /
        max input_info.duration 1⌋ := by
    unfold target_size_video_kbps
    exact max_pyTrunc_300 _
  simp only [video_mode_args, hmode]
  rw [if_neg (by decide), if_neg (by decide), if_pos trivial, hval]

/-- C2 witness: the amended theorem at target 50 MB, duration 60 s, audio
"128k": (50*8000 - 128*60)/60 floors to 6538 kbps. -/
theorem target_size_bitrate_formula_witness :
    video_mode_args
      { encoding_mode := some "target_size", target_size_mb := some 50,
        audio_bitrate := some "128k" }
      { duration := 60 } = ["-b:v", "6538k"] := by
  rw [target_size_bitrate_formula _ _ (by decide)]
  show ["-b:v", toString (max 300
    ⌊((50:ℚ) * 8000 - ((128:Int):ℚ) * max (60:ℚ) 1) / max (60:ℚ) 1⌋) ++ "k"] =
    ["-b:v", "6538k"]
  have hx : max 300 ⌊((50:ℚ) * 8000 - ((128:Int):ℚ) * max (60:ℚ) 1) / max (60:ℚ) 1⌋
      = 6538 := by
    norm_num [max_def]
  rw [hx]
  decide

/-! ## C8: bitrate floor and monotonicity -/

/-- Truncation toward zero is monotone. -/
theorem pyTrunc_mono {x y : ℚ} (h : x ≤ y) : pyTrunc x ≤ pyTrunc y := by
  unfold pyTrunc
  by_cases hx : 0 ≤ x
  · rw [if_pos hx, if_pos (le_trans hx h)]
    exact Int.floor_le_floor h
  · by_cases hy : 0 ≤ y
    · rw [if_neg hx, if_pos hy]
      have h1 : 0 ≤ ⌊-x⌋ := Int.floor_nonneg.mpr (by linarith)
      have h2 : (0:Int) ≤ ⌊y⌋ := Int.floor_nonneg.mpr hy
      omega
    · rw [if_neg hx, if_neg hy]
      have : ⌊-y⌋ ≤ ⌊-x⌋ := Int.floor_le_floor (by linarith)
      omega

/-- C8: the target-size bitrate computation never returns a value below the
300 kbps floor, and it is monotone (non-decreasing) in the target size for
fixed duration and fixed audio bitrate. -/
theorem target_size_floor_monotone (S1 S2 d : ℚ) (a : Int) (h : S1 ≤ S2) :
    300 ≤ target_size_video_kbps S1 d a ∧
    target_size_video_kbps S1 d a ≤ target_size_video_kbps S2 d a := by
  unfold target_size_video_kbps
  constructor
  · exact le_max_right _ _
  · have hd : (0:ℚ) < max d 1 := lt_of_lt_of_le zero_lt_one (le_max_right d 1)
    have hnum : S1 * 8000 - a * max d 1 ≤ S2 * 8000 - a * max d 1 := by nlinarith
    have hx : (S1 * 8000 - a * max d 1) / max d 1 ≤ (S2 * 8000 - a * max d 1) / max d 1 := by
      gcongr
    exact max_le_max (pyTrunc_mono hx) le_rfl

/-- C8 witness: the floor and monotonicity at the scenario values
(50 MB vs 60 MB, 120 s, 128 kbps audio). -/
theorem target_size_floor_monotone_witness :
    300 ≤ target_size_video_kbps 50 120 128 ∧
    target_size_video_kbps 50 120 128 ≤ target_size_video_kbps 60 120 128 :=
  target_size_floor_monotone 50 60 120 128 (by norm_num)

/-! ## C3: GOP size lower bound -/

/-- C3 counterexample: with a positive source frame rate (30 fps), GOP mode
"custom" and a configured gop_size of -5, resolution returns -5 and the
`-g -5` flag is emitted, so the resolved GOP size is below 1. -/
theorem gop_min_counterexample :
    0 < extract_source_fps { video_streams := [{ fps := 30 }] } ∧
    resolve_gop_size { gop_mode := some "custom", gop_size := some (-5) }
      { video_streams := [{ fps := 30 }] } = some (-5) ∧
    gop_args { gop_mode := some "custom", gop_size := some (-5) }
      { video_streams := [{ fps := 30 }] } = ["-g", "-5"] ∧
    ((-5 : Int) < 1) := by
  refine ⟨by decide, ?_, ?_, by decide⟩
  · decide
  · decide

/-- C3 (amended): for the four frame-rate-derived GOP modes (half_fps,
same_fps, double_fps, seconds) the resolved GOP size is at least 1 whenever
the source frame rate is positive; the custom mode and the final fallback
return the configured frame count unclamped, so configured values below 1
pass through there. -/
theorem gop_min_amended (config : JobConfig) (input_info : InputInfo) (g : Int)
    (hfps : 0 < extract_source_fps input_info)
    (hmode : pyLower (pyOr config.gop_mode "half_fps") ∈
      ["half_fps", "same_fps", "double_fps", "seconds"])
    (hres : resolve_gop_size config input_info = some g) :
    1 ≤ g := by
  have hnle : ¬ (extract_source_fps input_info ≤ 0 ∧ ¬ truthyInt config.gop_size = true) :=
    fun hc => absurd hc.1 (not_le.mpr hfps)
  unfold resolve_gop_size at hres
  simp only [List.mem_cons, List.not_mem_nil, or_false] at hmode
  rcases hmode with h | h | h | h
  · rw [h, if_neg hnle, if_pos ⟨rfl, hfps⟩] at hres
    rw [← Option.some.inj hres]
    exact le_max_left 1 _
  · rw [h, if_neg hnle, if_neg (fun hc => by simpa using hc.1),
        if_pos ⟨rfl, hfps⟩] at hres
    rw [← Option.some.inj hres]
    exact le_max_left 1 _
  · rw [h, if_neg hnle, if_neg (fun hc => by simpa using hc.1),
        if_neg (fun hc => by simpa using hc.1), if_pos ⟨rfl, hfps⟩] at hres
    rw [← Option.some.inj hres]
    exact le_max_left 1 _
  · rw [h, if_neg hnle, if_neg (fun hc => by simpa using hc.1),
        if_neg (fun hc => by simpa using hc.1), if_neg (fun hc => by simpa using hc.1),
        if_pos ⟨rfl, hfps⟩] at hres
    rw [← Option.some.inj hres]
    exact le_max_left 1 _

/-- C3 witness: the amended theorem at GOP mode half_fps with a 30 fps
source, which resolves to 15. -/
theorem gop_min_amended_witness :
    resolve_gop_size { gop_mode := some "half_fps" }
      { video_streams := [{ fps := 30 }] } = some 15 ∧ (1:Int) ≤ 15 := by
  have e : resolve_gop_size { gop_mode := some "half_fps" }
      { video_streams := [{ fps := 30 }] } = some (max 1 (pyRound ((30:ℚ) / 2))) := rfl
  have hres : resolve_gop_size { gop_mode := some "half_fps" }
      { video_streams := [{ fps := 30 }] } = some 15 := by
    rw [e]
    norm_num [pyRound, max_def]
  exact ⟨hres, gop_min_amended { gop_mode := some "half_fps" }
    { video_streams := [{ fps := 30 }] } 15 (by decide) (by decide) hres⟩

/-! ## C7: tune mapping -/

/-- C7 counterexample: "h264_qsv" is a hardware encoder family, yet the
requested tune "film" is not dropped — `-tune film` is emitted.  The code
only checks for "nvenc". -/
theorem tune_hw_counterexample :
    hardware_encoder_family_spec "h264_qsv" = true ∧
    map_encoder_tune "h264_qsv" (some "film") = some "film" ∧
    video_tune_args "h264_qsv" (some "film") = ["-tune", "film"] := by
  refine ⟨by decide, by decide, by decide⟩

/-- C7 (amended): a tune flag is emitted only for a non-blank requested
tune, and only the nvenc encoder family silently drops it — an encoder
whose lowered name contains "nvenc" never emits a tune flag, while every
other encoder (hardware or software) passes a non-blank requested tune
through verbatim. -/
theorem tune_nvenc_only_amended (encoder : String) (tune : Option String) :
    (strContainsSub (pyLower encoder) "nvenc" = true →
      video_tune_args encoder tune = []) ∧
    (∀ t, tune = some t → t ≠ "" → pyLower (pyStrip t) ≠ "" →
      strContainsSub (pyLower encoder) "nvenc" = false →
      video_tune_args encoder tune = ["-tune", t]) := by
  constructor
  · intro h
    cases tune with
    | none => rfl
    | some t =>
      by_cases h1 : t = ""
      · simp [video_tune_args, map_encoder_tune, h1]
      · by_cases h2 : pyLower (pyStrip t) = ""
        · simp [video_tune_args, map_encoder_tune, h1, h2]
        · simp [video_tune_args, map_encoder_tune, h1, h2, h]
  · intro t ht hne hstrip hnv
    subst ht
    simp [video_tune_args, map_encoder_tune, hne, hstrip, hnv]

/-- C7 witness: nvenc drops the tune, an amf hardware encoder passes it. -/
theorem tune_nvenc_only_witness :
    video_tune_args "h264_nvenc" (some "film") = [] ∧
    video_tune_args "h264_amf" (some "film") = ["-tune", "film"] :=
  ⟨(tune_nvenc_only_amended "h264_nvenc" (some "film")).1 (by decide),
   (tune_nvenc_only_amended "h264_amf" (some "film")).2 "film" rfl (by decide)
     (by decide) (by decide)⟩

/-! ## C5: cancellation outcome -/

/-- C5 counterexample: a stop request issued before the child exits but
never observed by the per-line check (here: no output lines remain, and the
process terminated by stop() exits with code -15) yields a Failed outcome
whose message is not "Conversion cancelled", and run emits the error
signal for it. -/
theorem cancel_counterexample :
    execute_conversion [] (some 0) (-15) = (false, "ffmpeg exited with code -15") ∧
    run_emits_error (execute_conversion [] (some 0) (-15)) = true := by
  refine ⟨by decide, by decide⟩

/-- Once the stop flag is set before some remaining line check, the
streaming loop reports the cancellation as observed. -/
theorem exec_loop_observes (k : Nat) :
    ∀ (lines : List String) (i : Nat) (buf : List String),
      lines ≠ [] → k < i + lines.length →
      (exec_loop (some k) lines i buf).2 = true := by
  intro lines
  induction lines with
  | nil => intro i buf hne _; exact absurd rfl hne
  | cons l rest ih =>
    intro i buf _ hk
    simp only [exec_loop]
    by_cases hi : stopObserved (some k) i = true
    · rw [if_pos hi]
    · rw [if_neg hi]
      have hik : i < k := by
        simp only [stopObserved, ge_iff_le, decide_eq_true_eq] at hi
        omega
      have hrest : rest ≠ [] := by
        intro h
        subst h
        simp only [List.length_cons, List.length_nil] at hk
        omega
      refine ih (i + 1) _ hrest ?_
      simp only [List.length_cons] at hk ⊢
      omega

/-- C5 (amended): whenever the stop request is observed by the per-line
check — it precedes at least one remaining output line — the outcome is
exactly (false, "Conversion cancelled") and the error signal is not
emitted; a stop request never observed by the loop instead surfaces as a
Failed outcome through the terminated process's nonzero exit code. -/
theorem cancel_observed_amended (lines : List String) (k : Nat) (returncode : Int)
    (hk : k < lines.length) :
    execute_conversion lines (some k) returncode = (false, "Conversion cancelled") ∧
    run_emits_error (execute_conversion lines (some k) returncode) = false := by
  have hobs : (exec_loop (some k) lines 0 []).2 = true := by
    refine exec_loop_observes k lines 0 [] ?_ (by omega)
    intro h
    subst h
    simp at hk
  have hres : execute_conversion lines (some k) returncode =
      (false, "Conversion cancelled") := by
    simp only [execute_conversion]
    rw [if_pos hobs]
  refine ⟨hres, ?_⟩
  rw [hres]
  decide

/-- C5 witness: a stop observed before the second of two output lines. -/
theorem cancel_observed_witness :
    execute_conversion ["frame=1", "frame=2"] (some 1) 0 =
      (false, "Conversion cancelled") ∧
    run_emits_error (execute_conversion ["frame=1", "frame=2"] (some 1) 0) = false :=
  cancel_observed_amended ["frame=1", "frame=2"] 1 0 (by decide)

/-! ## C9: temp directory cleanup -/

/-- C9: on every run — success, failure (including the cancellation
message delivered through the failure path), analysis failure, or an
exception — once the per-job temp directory was created, the first effect
is its creation and the last effect is its cleanup. -/
theorem temp_cleanup_on_all_paths (o : RunOracle) (output_file : String)
    (hc : o.create = .ok ()) :
    (worker_run o output_file).head? = some RunEvent.createdTempDir ∧
    (worker_run o output_file).getLast? = some RunEvent.cleanupTempDir := by
  simp only [worker_run, hc]
  constructor
  · rfl
  · rw [List.getLast?_concat]

/-- C9 witness: the cleanup bracketing on a successful run. -/
theorem temp_cleanup_witness :
    (worker_run ⟨.ok (), none, .ok (true, "")⟩ "out.mp4").head? =
      some RunEvent.createdTempDir ∧
    (worker_run ⟨.ok (), none, .ok (true, "")⟩ "out.mp4").getLast? =
      some RunEvent.cleanupTempDir :=
  temp_cleanup_on_all_paths ⟨.ok (), none, .ok (true, "")⟩ "out.mp4" rfl

/-! ## C4: bounded active set -/

/-- process_next_in_queue grows the active set by at most one job. -/
theorem process_next_active_le (create_ok : String → Bool) (st : SchedState) :
    (process_next_in_queue create_ok st).1.active.length ≤ st.active.length + 1 := by
  obtain ⟨q, a, pv, bar⟩ := st
  cases q with
  | nil =>
    by_cases ha : a = []
    · simp [process_next_in_queue, ha]
    · simp [process_next_in_queue, ha]
  | cons j rest =>
    by_cases hok : create_ok j = true
    · by_cases hmem : j ∈ a
      · simp [process_next_in_queue, hok, hmem]
      · simp [process_next_in_queue, hok, hmem]
    · simp [process_next_in_queue, hok]

/-- The slot-filling loop never pushes the active set past the limit. -/
theorem fill_loop_preserves (m : Nat) (create_ok : String → Bool) :
    ∀ (fuel : Nat) (st : SchedState), st.active.length ≤ m →
      (fill_loop m create_ok fuel st).active.length ≤ m := by
  intro fuel
  induction fuel with
  | zero => intro st h; exact h
  | succ f ih =>
    intro st h
    rw [fill_loop]
    by_cases hc : st.queue ≠ [] ∧ st.active.length < m
    · rw [if_pos hc]
      refine ih _ ?_
      calc (process_next_in_queue create_ok st).1.active.length
          ≤ st.active.length + 1 := process_next_active_le create_ok st
        _ ≤ m := hc.2
    · rw [if_neg hc]
      exact h

/-- Each scheduler event preserves the active-set bound. -/
theorem sched_step_preserves (n : Int) (create_ok : String → Bool)
    (st : SchedState) (e : SchedEvent)
    (h : st.active.length ≤ (max 1 n).toNat) :
    (sched_step n create_ok st e).active.length ≤ (max 1 n).toNat := by
  cases e with
  | enqueue j => exact h
  | start =>
    unfold sched_step fill_conversion_slots
    exact fill_loop_preserves _ create_ok _ st h
  | progressEvent s p =>
    simp only [sched_step, on_conversion_progress]
    exact h
  | finishedEvent s ok =>
    simp only [sched_step, on_conversion_finished]
    by_cases hmem : s ∈ st.active
    · simp only [hmem, if_true]
      have hlen : (st.active.erase s).length ≤ (max 1 n).toNat :=
        le_trans (List.Sublist.length_le (List.erase_sublist s st.active)) h
      by_cases hok : ok = true
      · rw [if_pos hok]
        unfold fill_conversion_slots
        exact fill_loop_preserves _ create_ok _ _ hlen
      · rw [if_neg hok]
        exact hlen
    · simp only [hmem, if_false]
      by_cases hne : st.active ≠ []
      · rw [if_pos hne]
        have hlen : st.active.dropLast.length ≤ (max 1 n).toNat := by
          simp only [List.length_dropLast]
          omega
        by_cases hok : ok = true
        · rw [if_pos hok]
          unfold fill_conversion_slots
          exact fill_loop_preserves _ create_ok _ _ hlen
        · rw [if_neg hok]
          exact hlen
      · rw [if_neg hne]
        by_cases hok : ok = true
        · rw [if_pos hok]
          unfold fill_conversion_slots
          exact fill_loop_preserves _ create_ok _ _ h
        · rw [if_neg hok]
          exact h
  | stopAll => simp [sched_step]

/-- The bound holds along every event sequence from any bounded state. -/
theorem sched_run_bound_aux (n : Int) (create_ok : String → Bool) :
    ∀ (events : List SchedEvent) (st : SchedState),
      st.active.length ≤ (max 1 n).toNat →
      (events.foldl (sched_step n create_ok) st).active.length ≤ (max 1 n).toNat := by
  intro events
  induction events with
  | nil => intro st h; exact h
  | cons e rest ih =>
    intro st h
    exact ih _ (sched_step_preserves n create_ok st e h)

/-- C4: for every configured parallelism limit n (the scheduler clamps it
to at least 1), every worker-creation oracle and every sequence of job
arrivals, start requests, progress events and terminal events, the active
conversion set never holds more than max(1, n) jobs. -/
theorem scheduler_active_bound (n : Int) (create_ok : String → Bool)
    (events : List SchedEvent) :
    (sched_run n create_ok events).active.length ≤ (max 1 n).toNat :=
  sched_run_bound_aux n create_ok events initial_sched_state
    (by simp [initial_sched_state])

/-! ## C6: aggregate progress -/

/-- C6 counterexample: in the reachable state with two active jobs and no
recorded fractions (limit 2, two jobs enqueued and started, no progress
yet), a progress event of 50 from the first job makes the exposed
aggregate 50 — the mean over the single reporting job — while the
arithmetic mean over all currently active jobs' fractions is 25. -/
theorem aggregate_mean_counterexample :
    sched_run 2 (fun _ => true) [.enqueue "a", .enqueue "b", .start] =
      { queue := [], active := ["a", "b"], progress_values := [], bar_value := 0 } ∧
    (on_conversion_progress
      { queue := [], active := ["a", "b"], progress_values := [], bar_value := 0 }
      "a" 50).progress_values = [("a", 50)] ∧
    aggregate_progress [("a", (50:ℚ))] = 50 ∧
    mean_of_active_spec (on_conversion_progress
      { queue := [], active := ["a", "b"], progress_values := [], bar_value := 0 }
      "a" 50) = 25 ∧
    (50 : ℚ) ≠ 25 := by
  refine ⟨rfl, rfl, ?_, ?_, by norm_num⟩
  · norm_num [aggregate_progress, sumVals]
  · have e : mean_of_active_spec (on_conversion_progress
        { queue := [], active := ["a", "b"], progress_values := [], bar_value := 0 }
        "a" 50) = ((50:ℚ) + (0 + 0)) / ((2:ℕ) : ℚ) := rfl
    rw [e]
    norm_num

/-- Every element of a dict-style update is the new binding or an old one. -/
theorem mem_updateAssoc (l : List (String × ℚ)) (k : String) (v : ℚ) :
    ∀ q ∈ updateAssoc l k v, q = (k, v) ∨ q ∈ l := by
  intro q hq
  unfold updateAssoc at hq
  by_cases ha : l.any (fun p => p.1 == k) = true
  · rw [if_pos ha] at hq
    obtain ⟨r, hr, hrq⟩ := List.mem_map.mp hq
    by_cases hrk : r.1 == k
    · left
      rw [if_pos hrk] at hrq
      exact hrq.symm
    · right
      rw [if_neg hrk] at hrq
      exact hrq ▸ hr
  · rw [if_neg ha] at hq
    rcases List.mem_append.mp hq with hmem | hmem
    · right
      exact hmem
    · left
      simpa using hmem

/-- A dict-style update always contains the new binding. -/
theorem self_mem_updateAssoc (l : List (String × ℚ)) (k : String) (v : ℚ) :
    (k, v) ∈ updateAssoc l k v := by
  unfold updateAssoc
  by_cases ha : l.any (fun p => p.1 == k) = true
  · rw [if_pos ha]
    obtain ⟨r, hr, hrk⟩ := List.any_eq_true.mp ha
    refine List.mem_map.mpr ⟨r, hr, ?_⟩
    rw [if_pos hrk]
  · rw [if_neg ha]
    exact List.mem_append.mpr (Or.inr (List.mem_singleton.mpr rfl))

/-- C6 (amended): after a progress event from an active job, every recorded
fraction belongs to a currently active job, the reporting job's fraction is
recorded, and the exposed aggregate is the arithmetic mean of the recorded
fractions — the mean over the active jobs that have reported progress, not
over all active jobs. -/
theorem aggregate_mean_amended (st : SchedState) (sender : String) (p : ℚ)
    (hsub : ∀ q ∈ st.progress_values, q.1 ∈ st.active)
    (hsender : sender ∈ st.active) :
    (∀ q ∈ (on_conversion_progress st sender p).progress_values,
        q.1 ∈ (on_conversion_progress st sender p).active) ∧
    (sender, p) ∈ (on_conversion_progress st sender p).progress_values ∧
    aggregate_progress ((on_conversion_progress st sender p).progress_values) =
      sumVals ((on_conversion_progress st sender p).progress_values) /
        (((on_conversion_progress st sender p).progress_values.length : ℕ) : ℚ) := by
  have hact : (on_conversion_progress st sender p).active = st.active := rfl
  have hpv : (on_conversion_progress st sender p).progress_values =
      updateAssoc st.progress_values sender p := by
    simp only [on_conversion_progress, if_pos hsender]
  refine ⟨?_, ?_, ?_⟩
  · intro q hq
    rw [hpv] at hq
    rw [hact]
    rcases mem_updateAssoc _ _ _ q hq with hq1 | hq1
    · rw [hq1]
      exact hsender
    · exact hsub q hq1
  · rw [hpv]
    exact self_mem_updateAssoc st.progress_values sender p
  · rw [hpv]
    have hlen : 1 ≤ (updateAssoc st.progress_values sender p).length :=
      List.length_pos.mpr (List.ne_nil_of_mem (self_mem_updateAssoc st.progress_values sender p))
    unfold aggregate_progress
    rw [Nat.max_eq_right hlen]

/-- C6 witness: the amended theorem on a single active job reporting 50. -/
theorem aggregate_mean_amended_witness :
    (("a", (50:ℚ)) ∈ (on_conversion_progress
      { queue := [], active := ["a"], progress_values := [], bar_value := 0 }
      "a" 50).progress_values) ∧
    aggregate_progress ((on_conversion_progress
      { queue := [], active := ["a"], progress_values := [], bar_value := 0 }
      "a" 50).progress_values) =
      sumVals ((on_conversion_progress
        { queue := [], active := ["a"], progress_values := [], bar_value := 0 }
        "a" 50).progress_values) /
        ((((on_conversion_progress
          { queue := [], active := ["a"], progress_values := [], bar_value := 0 }
          "a" 50).progress_values.length : ℕ)) : ℚ) :=
  ⟨(aggregate_mean_amended
      { queue := [], active := ["a"], progress_values := [], bar_value := 0 }
      "a" 50 (by simp) (by simp)).2.1,
   (aggregate_mean_amended
      { queue := [], active := ["a"], progress_values := [], bar_value := 0 }
      "a" 50 (by simp) (by simp)).2.2⟩

/-! ## C10: job lost on worker-creation failure -/

/-- C10: the queue head is popped before worker creation is attempted, and
when creation fails the handler returns with the job gone: the new queue is
the tail (the job is not re-queued), the active set is untouched (the job
is not activated), no worker is started for it (so no terminal event can
ever be delivered for it), and the only visible effect is the error
dialog. -/
theorem job_lost_on_create_failure (create_ok : String → Bool) (st : SchedState)
    (j : String) (rest : List String)
    (hq : st.queue = j :: rest) (hfail : create_ok j = false) :
    (process_next_in_queue create_ok st).1.queue = rest ∧
    (process_next_in_queue create_ok st).1.active = st.active ∧
    (process_next_in_queue create_ok st).2.1 =
      [UiEvent.errorDialog "Failed to create conversion job"] ∧
    (process_next_in_queue create_ok st).2.2 = none := by
  obtain ⟨q, a, pv, bar⟩ := st
  simp only at hq
  subst hq
  simp [process_next_in_queue, hfail]

/-- C10 witness: a one-job queue whose worker creation fails. -/
theorem job_lost_on_create_failure_witness :
    (process_next_in_queue (fun _ => false)
      { queue := ["j1"], active := [], progress_values := [], bar_value := 0 }).1.queue = [] ∧
    (process_next_in_queue (fun _ => false)
      { queue := ["j1"], active := [], progress_values := [], bar_value := 0 }).1.active = [] ∧
    (process_next_in_queue (fun _ => false)
      { queue := ["j1"], active := [], progress_values := [], bar_value := 0 }).2.1 =
      [UiEvent.errorDialog "Failed to create conversion job"] ∧
    (process_next_in_queue (fun _ => false)
      { queue := ["j1"], active := [], progress_values := [], bar_value := 0 }).2.2 = none :=
  job_lost_on_create_failure (fun _ => false)
    { queue := ["j1"], active := [], progress_values := [], bar_value := 0 }
    "j1" [] rfl rfl
